import Mathlib

/-!
Shallow embedding of the RAG PDF chatbot (document_processor.py, vector_store.py,
llm_handler.py, chatbot.py) and proofs of the specification claims.

External library effects (PDF text extraction, embedding calls, the LLM chain
invocation, similarity ranking) are not this repository's code; they are
modelled as explicit oracle parameters: each call site receives the outcome
the external service would produce.  Python exceptions are modelled with
`Except String`; the repository's own control flow (try/except, early raises,
flag updates) is translated statement by statement from the source.
-/

/-- A langchain `Document`: page text plus metadata.  Text is a list of
characters so that Python `len` and slicing are `List.length`, `List.take`
and `List.drop`. -/
structure Doc where
  page_content : List Char
  source : String
  page : Nat
deriving Repr, DecidableEq

/-- A Streamlit uploaded file: a name and raw bytes (modelled as chars). -/
structure File where
  name : String
  content : List Char
deriving Repr, DecidableEq

/-- The answer dictionary a `RetrievalQA` chain returns
(`return_source_documents=True`): a "result" field and a
"source_documents" field. -/
structure Response where
  result : String
  source_documents : List Doc
deriving Repr, DecidableEq

/- config.py -/

/-- config.py: CHUNK_SIZE = 1500 -/
def CHUNK_SIZE : Nat := 1500

/-- config.py: CHUNK_OVERLAP = 200 -/
def CHUNK_OVERLAP : Nat := 200

/-- config.py: COLLECTION_NAME = "pdf_documents" -/
def COLLECTION_NAME : String := "pdf_documents"

/-- config.py: LLM_MODEL = "llama3.2:1b" -/
def LLM_MODEL : String := "llama3.2:1b"

/-- config.py: LLM_BASE_URL -/
def LLM_BASE_URL : String := "http://localhost:11434"

/- document_processor.py -/

/-- DocumentProcessor.__init__: stores chunk_size and chunk_overlap and
configures a RecursiveCharacterTextSplitter with them. -/
structure DocumentProcessor where
  chunk_size : Nat
  chunk_overlap : Nat
deriving Repr, DecidableEq

/-- Modelled from the spec: the text splitter itself is library code
(langchain's RecursiveCharacterTextSplitter), absent from the repository.
The spec describes chunking as "splitting long text into overlapping
fixed-size segments": each chunk is a window of `size` characters and the
next window starts `size - overlap` characters later, so consecutive
windows share `overlap` characters.  Degenerate configurations with
`size ≤ overlap` (which the repository never uses) return the text whole. -/
def chunkText (size overlap : Nat) (s : List Char) : List (List Char) :=
  if s.length ≤ size ∨ size ≤ overlap then [s]
  else s.take size :: chunkText size overlap (s.drop (size - overlap))
termination_by s.length
decreasing_by
  simp only [List.length_drop]
  omega

/-- DocumentProcessor.split_documents: split every document's text into
chunks, each chunk keeping its document's metadata (what langchain's
`split_documents` does with the configured splitter). -/
def DocumentProcessor.split_documents (dp : DocumentProcessor) (documents : List Doc) :
    List Doc :=
  documents.flatMap fun d =>
    (chunkText dp.chunk_size dp.chunk_overlap d.page_content).map
      fun t => { d with page_content := t }

/-- DocumentProcessor.process_pdf: save the uploaded file to
`PDF_DIR/name`, load it back with PyPDFLoader, split into chunks.  Saving
then loading the same path yields the uploaded bytes, so extraction is a
function of the file's content; `extract` is the PyPDFLoader oracle
(raising = `.error`).  `load_pdf` re-raises on failure, and the exception
then propagates out of `process_pdf`. -/
def DocumentProcessor.process_pdf (dp : DocumentProcessor)
    (extract : List Char → Except String (List Doc)) (f : File) :
    Except String (List Doc) :=
  match extract f.content with
  | .error e => .error e
  | .ok documents => .ok (dp.split_documents documents)

/-- DocumentProcessor.process_multiple_pdfs: `all_chunks = []`, then for
each file extend `all_chunks` with `process_pdf(file)`; an exception in any
file propagates out of the loop. -/
def DocumentProcessor.process_multiple_pdfs (dp : DocumentProcessor)
    (extract : List Char → Except String (List Doc)) :
    List File → Except String (List Doc)
  | [] => .ok []
  | f :: rest =>
    match dp.process_pdf extract f with
    | .error e => .error e
    | .ok chunks =>
      match dp.process_multiple_pdfs extract rest with
      | .error e => .error e
      | .ok more => .ok (chunks ++ more)

/- vector_store.py -/

/-- The persistent ChromaDB client: named collections of documents (the
embedding vectors themselves live in the external service and are not
observable through this repository's API). -/
structure ChromaClient where
  collections : List (String × List Doc)
deriving Repr, DecidableEq

/-- chromadb delete_collection: raises when the collection does not
exist, otherwise removes it. -/
def ChromaClient.delete_collection (c : ChromaClient) (name : String) :
    Except String ChromaClient :=
  if c.collections.any (fun p => p.1 = name) then
    .ok { collections := c.collections.filter (fun p => ¬ p.1 = name) }
  else
    .error ("Collection " ++ name ++ " does not exist.")

/-- First entry with the given name, if any (helper for `lookup`). -/
def lookupEntries : List (String × List Doc) → String → Option (List Doc)
  | [], _ => none
  | p :: rest, name => if p.1 = name then some p.2 else lookupEntries rest name

/-- Look up a collection's documents by name. -/
def ChromaClient.lookup (c : ChromaClient) (name : String) : Option (List Doc) :=
  lookupEntries c.collections name

/-- Chroma.from_documents: embeds the documents (the `embed` oracle is the
external embedding call, which may raise) and creates the named collection
holding exactly them. -/
def ChromaClient.from_documents (c : ChromaClient) (name : String)
    (documents : List Doc) (embed : Except String Unit) :
    Except String ChromaClient :=
  match embed with
  | .error e => .error e
  | .ok _ => .ok { collections := (name, documents) :: c.collections }

/-- Append documents to a named collection (Chroma.add_documents on a
store bound to that collection). -/
def ChromaClient.append_to (c : ChromaClient) (name : String)
    (documents : List Doc) : ChromaClient :=
  { collections := c.collections.map
      (fun p => if p.1 = name then (p.1, p.2 ++ documents) else p) }

/-- A retriever over the held vector store (`as_retriever` with
`search_kwargs={"k": k}`). -/
structure Retriever where
  k : Nat
deriving Repr, DecidableEq

/-- VectorStoreManager.__init__: embedding model configuration, the fixed
persist directory and collection name, no vector store held yet, and the
persistent client (whatever collections the persist directory already
holds on disk). -/
structure VectorStoreManager where
  model_name : String
  base_url : String
  persist_directory : String
  collection_name : String
  _vector_store : Option Unit
  chroma_client : ChromaClient
deriving Repr, DecidableEq

/-- VectorStoreManager.__init__ with config defaults, over the client
loaded from disk. -/
def VectorStoreManager.new (disk : ChromaClient) : VectorStoreManager :=
  { model_name := LLM_MODEL
    base_url := LLM_BASE_URL
    persist_directory := "vectorDB"
    collection_name := COLLECTION_NAME
    _vector_store := none
    chroma_client := disk }

/-- VectorStoreManager.create_vector_store: delete the existing collection
(`except Exception: pass` when it does not exist), then build a new store
from the documents.  On embedding failure the exception is logged and
re-raised, with the deletion already performed. -/
def VectorStoreManager.create_vector_store (m : VectorStoreManager)
    (documents : List Doc) (embed : Except String Unit) :
    VectorStoreManager × Except String Unit :=
  let client1 :=
    match m.chroma_client.delete_collection m.collection_name with
    | .ok c => c
    | .error _ => m.chroma_client
  match client1.from_documents m.collection_name documents embed with
  | .error e => ({ m with chroma_client := client1 }, .error e)
  | .ok client2 =>
    ({ m with chroma_client := client2, _vector_store := some () }, .ok ())

/-- VectorStoreManager.add_documents: create the store when none is held,
otherwise add the documents to the held store's collection (the external
embedding call may raise). -/
def VectorStoreManager.add_documents (m : VectorStoreManager)
    (documents : List Doc) (embed : Except String Unit) :
    VectorStoreManager × Except String Unit :=
  match m._vector_store with
  | none => m.create_vector_store documents embed
  | some _ =>
    match embed with
    | .error e => (m, .error e)
    | .ok _ =>
      ({ m with chroma_client :=
          m.chroma_client.append_to m.collection_name documents }, .ok ())

/-- VectorStoreManager.clear_vector_store: delete the collection (failures
swallowed), then remove and recreate the whole persist directory, leaving
the client with no collections at all.  `_vector_store` is not touched. -/
def VectorStoreManager.clear_vector_store (m : VectorStoreManager) :
    VectorStoreManager :=
  { m with chroma_client := { collections := [] } }

/-- VectorStoreManager.search: empty result when no store is held;
otherwise `similarity_search(query, k)`, the external service returning
the `k` nearest of the collection's documents — modelled as an oracle
`rank` ordering the collection by relevance to the query, of which the
first `k` are returned. -/
def VectorStoreManager.search (m : VectorStoreManager) (query : String)
    (k : Nat) (rank : String → List Doc → List Doc) : List Doc :=
  match m._vector_store with
  | none => []
  | some _ =>
    (rank query ((m.chroma_client.lookup m.collection_name).getD [])).take k

/-- VectorStoreManager.get_retriever: raises ValueError when no store is
held; otherwise a retriever with the requested `k`. -/
def VectorStoreManager.get_retriever (m : VectorStoreManager) (k : Nat) :
    Except String Retriever :=
  match m._vector_store with
  | none => .error "No vector store available"
  | some _ => .ok { k := k }

/- llm_handler.py -/

/-- A message held in conversation memory (human or AI turn). -/
structure ChatMessage where
  role : String
  content : String
deriving Repr, DecidableEq

/-- langchain ConversationBufferMemory: its chat_memory holds the message
list; `clear()` empties it. -/
structure ConversationBufferMemory where
  messages : List ChatMessage
deriving Repr, DecidableEq

/-- The created RetrievalQA chain: holds the retriever it was built over
(the prompt template is a fixed constant; llm and memory are shared with
the handler). -/
structure QAChain where
  retriever : Retriever
deriving Repr, DecidableEq

/-- LLMHandler state: the lower-cased provider name and the lazily created
llm / memory / qa-chain fields.  The stored float `temperature` is only
passed through to the external client constructors and is not modelled. -/
structure LLMHandler where
  provider : String
  _llm : Option Unit
  _memory : Option ConversationBufferMemory
  _qa_chain : Option QAChain
deriving Repr, DecidableEq

/-- LLMHandler.__init__: lower-case the provider, nothing created yet. -/
def LLMHandler.new (provider : String) : LLMHandler :=
  { provider := provider.toLower
    _llm := none
    _memory := none
    _qa_chain := none }

/-- LLMHandler.get_llm: return the cached instance, or create one.  The
azure constructor raises ValueError when the credentials are not
configured (`azureCredsOk` is whether the environment provides them); the
ollama constructor does not raise. -/
def LLMHandler.get_llm (h : LLMHandler) (azureCredsOk : Bool) :
    LLMHandler × Except String Unit :=
  match h._llm with
  | some u => (h, .ok u)
  | none =>
    if h.provider = "azure" then
      if azureCredsOk then ({ h with _llm := some () }, .ok ())
      else (h, .error ("Azure OpenAI credentials not configured. " ++
        "Set AZURE_OPENAI_API_KEY and AZURE_OPENAI_ENDPOINT environment variables."))
    else ({ h with _llm := some () }, .ok ())

/-- LLMHandler.get_memory: return the memory, creating an empty one on
first use. -/
def LLMHandler.get_memory (h : LLMHandler) :
    LLMHandler × ConversationBufferMemory :=
  match h._memory with
  | some m => (h, m)
  | none => ({ h with _memory := some { messages := [] } }, { messages := [] })

/-- LLMHandler.create_qa_chain: build a RetrievalQA chain from
`get_llm()` (evaluated first; its exception propagates), the retriever and
`get_memory()`, and store it in `_qa_chain`. -/
def LLMHandler.create_qa_chain (h : LLMHandler) (retriever : Retriever)
    (azureCredsOk : Bool) : LLMHandler × Except String QAChain :=
  match h.get_llm azureCredsOk with
  | (h1, .error e) => (h1, .error e)
  | (h1, .ok _) =>
    let h2 := (h1.get_memory).1
    let chain : QAChain := { retriever := retriever }
    ({ h2 with _qa_chain := some chain }, .ok chain)

/-- LLMHandler.query: raise ValueError when no QA chain was created;
otherwise invoke the chain — external LLM plus retrieval, whose outcome is
the `chainResult` oracle — logging and re-raising its exception. -/
def LLMHandler.query (h : LLMHandler) (_question : String)
    (chainResult : Except String Response) : Except String Response :=
  match h._qa_chain with
  | none => .error "QA chain not initialized. Call create_qa_chain first."
  | some _ => chainResult

/-- LLMHandler.clear_memory: clear the memory when one exists; do nothing
otherwise. -/
def LLMHandler.clear_memory (h : LLMHandler) : LLMHandler :=
  match h._memory with
  | none => h
  | some _ => { h with _memory := some { messages := [] } }

/-- LLMHandler.get_conversation_history: `[]` when memory was never
created, else the memory's messages. -/
def LLMHandler.get_conversation_history (h : LLMHandler) : List ChatMessage :=
  match h._memory with
  | none => []
  | some m => m.messages

/-- LLMHandler.switch_provider: store the lower-cased provider and reset
`_llm` and `_qa_chain` to force recreation. -/
def LLMHandler.switch_provider (h : LLMHandler) (provider : String) :
    LLMHandler :=
  { h with provider := provider.toLower, _llm := none, _qa_chain := none }

/- chatbot.py -/

/-- RAGChatbot state: the three components and the `_is_initialized`
flag (named `_is_ready` here). -/
structure RAGChatbot where
  document_processor : DocumentProcessor
  vector_store_manager : VectorStoreManager
  llm_handler : LLMHandler
  _is_ready : Bool
deriving Repr, DecidableEq

/-- RAGChatbot.__init__ over the on-disk client state and the configured
default provider: fresh components, flag false. -/
def RAGChatbot.new (disk : ChromaClient) (provider : String) : RAGChatbot :=
  { document_processor := { chunk_size := CHUNK_SIZE, chunk_overlap := CHUNK_OVERLAP }
    vector_store_manager := VectorStoreManager.new disk
    llm_handler := LLMHandler.new provider
    _is_ready := false }

/-- RAGChatbot.process_pdfs: chunk the uploads, create the vector store,
build the QA chain over its retriever, then set the flag and return True;
any exception is caught, leaving the partial updates in place, and False
is returned. -/
def RAGChatbot.process_pdfs (bot : RAGChatbot) (uploaded_files : List File)
    (extract : List Char → Except String (List Doc))
    (embed : Except String Unit) (azureCredsOk : Bool) : RAGChatbot × Bool :=
  match bot.document_processor.process_multiple_pdfs extract uploaded_files with
  | .error _ => (bot, false)
  | .ok chunks =>
    let (vsm, r) := bot.vector_store_manager.create_vector_store chunks embed
    let bot1 := { bot with vector_store_manager := vsm }
    match r with
    | .error _ => (bot1, false)
    | .ok _ =>
      match bot1.vector_store_manager.get_retriever 4 with
      | .error _ => (bot1, false)
      | .ok retriever =>
        let (lh, rc) := bot1.llm_handler.create_qa_chain retriever azureCredsOk
        let bot2 := { bot1 with llm_handler := lh }
        match rc with
        | .error _ => (bot2, false)
        | .ok _ => ({ bot2 with _is_ready := true }, true)

/-- RAGChatbot.add_pdfs: chunk the uploads, add them to the vector store,
rebuild the QA chain; exceptions are caught the same way.  The readiness
flag is never written. -/
def RAGChatbot.add_pdfs (bot : RAGChatbot) (uploaded_files : List File)
    (extract : List Char → Except String (List Doc))
    (embed : Except String Unit) (azureCredsOk : Bool) : RAGChatbot × Bool :=
  match bot.document_processor.process_multiple_pdfs extract uploaded_files with
  | .error _ => (bot, false)
  | .ok chunks =>
    let (vsm, r) := bot.vector_store_manager.add_documents chunks embed
    let bot1 := { bot with vector_store_manager := vsm }
    match r with
    | .error _ => (bot1, false)
    | .ok _ =>
      match bot1.vector_store_manager.get_retriever 4 with
      | .error _ => (bot1, false)
      | .ok retriever =>
        let (lh, rc) := bot1.llm_handler.create_qa_chain retriever azureCredsOk
        let bot2 := { bot1 with llm_handler := lh }
        match rc with
        | .error _ => (bot2, false)
        | .ok _ => (bot2, true)

/-- RAGChatbot.chat: before any successful processing, a fixed prompt to
upload a PDF; afterwards the handler's query result, with any exception
caught and rendered into the result field. -/
def RAGChatbot.chat (bot : RAGChatbot) (question : String)
    (chainResult : Except String Response) : Response :=
  if bot._is_ready = false then
    { result := "Please upload a PDF file first to start chatting."
      source_documents := [] }
  else
    match bot.llm_handler.query question chainResult with
    | .ok response => response
    | .error e =>
      { result := "Sorry, I encountered an error: " ++ e
        source_documents := [] }

/-- RAGChatbot.search_documents: delegate to the vector store search. -/
def RAGChatbot.search_documents (bot : RAGChatbot) (query : String) (k : Nat)
    (rank : String → List Doc → List Doc) : List Doc :=
  bot.vector_store_manager.search query k rank

/-- RAGChatbot.clear_chat_history: delegate to clear_memory. -/
def RAGChatbot.clear_chat_history (bot : RAGChatbot) : RAGChatbot :=
  { bot with llm_handler := bot.llm_handler.clear_memory }

/-- RAGChatbot.get_chat_history: delegate to get_conversation_history. -/
def RAGChatbot.get_chat_history (bot : RAGChatbot) : List ChatMessage :=
  bot.llm_handler.get_conversation_history

/-- RAGChatbot.reset: clear the vector store and the memory and drop the
readiness flag. -/
def RAGChatbot.reset (bot : RAGChatbot) : RAGChatbot :=
  { bot with
    vector_store_manager := bot.vector_store_manager.clear_vector_store
    llm_handler := bot.llm_handler.clear_memory
    _is_ready := false }

/-- RAGChatbot.is_ready property. -/
def RAGChatbot.is_ready (bot : RAGChatbot) : Bool :=
  bot._is_ready

/- Traces of chatbot API calls, for lifecycle claims.  Each operation
carries the outcomes of the external services it consults. -/

/-- One call to the RAGChatbot public API. -/
inductive Op where
  | opProcess (uploaded_files : List File)
      (extract : List Char → Except String (List Doc))
      (embed : Except String Unit) (azureCredsOk : Bool)
  | opAdd (uploaded_files : List File)
      (extract : List Char → Except String (List Doc))
      (embed : Except String Unit) (azureCredsOk : Bool)
  | opChat (question : String) (chainResult : Except String Response)
  | opSearch (query : String) (k : Nat) (rank : String → List Doc → List Doc)
  | opClear
  | opReset

/-- The state after one API call. -/
def execOp (bot : RAGChatbot) : Op → RAGChatbot
  | .opProcess files extract embed az => (bot.process_pdfs files extract embed az).1
  | .opAdd files extract embed az => (bot.add_pdfs files extract embed az).1
  | .opChat _ _ => bot
  | .opSearch _ _ _ => bot
  | .opClear => bot.clear_chat_history
  | .opReset => bot.reset

/-- Whether this call is a process_pdfs call that returns True from this
state. -/
def succProcess (bot : RAGChatbot) : Op → Bool
  | .opProcess files extract embed az => (bot.process_pdfs files extract embed az).2
  | _ => false

/-- No call in the trace is a successful process_pdfs. -/
def noSuccProcess : RAGChatbot → List Op → Prop
  | _, [] => True
  | bot, op :: rest =>
    succProcess bot op = false ∧ noSuccProcess (execOp bot op) rest

/-- The state after a trace of API calls. -/
def execTrace (bot : RAGChatbot) (ops : List Op) : RAGChatbot :=
  ops.foldl execOp bot

/- Concrete values used to exercise the theorems. -/

/-- A tiny concrete document. -/
def sampleDoc : Doc := { page_content := ['h', 'i'], source := "a.pdf", page := 0 }

/-- A concrete uploaded file. -/
def sampleFile : File := { name := "a.pdf", content := ['h', 'i'] }

/-- A second concrete uploaded file. -/
def sampleFile2 : File := { name := "b.pdf", content := ['y', 'o'] }

/-- A PDF-extraction oracle that turns every file into one single-page
document carrying the file's characters. -/
def sampleExtract : List Char → Except String (List Doc) :=
  fun c => .ok [{ page_content := c, source := "up", page := 0 }]

/-- A ranking oracle that returns the collection unchanged. -/
def sampleRank : String → List Doc → List Doc := fun _ docs => docs

/-- A document processor with the config defaults. -/
def dpW : DocumentProcessor := { chunk_size := CHUNK_SIZE, chunk_overlap := CHUNK_OVERLAP }

/-- A freshly constructed chatbot over an empty persist directory. -/
def botW : RAGChatbot := RAGChatbot.new { collections := [] } "ollama"

/-- A manager holding a vector store over a one-document collection. -/
def mgrW : VectorStoreManager :=
  { VectorStoreManager.new { collections := [(COLLECTION_NAME, [sampleDoc])] } with
    _vector_store := some () }

/-- A chatbot whose readiness flag is set but whose QA chain is absent. -/
def readyBotW : RAGChatbot := { botW with _is_ready := true }

/-- Two consecutive chunks share an overlap of exactly `bound`
characters: the last `bound` characters of the first chunk are literally
the first `bound` characters of the second.  Pinning the length to
`bound` (rather than bounding it) makes the relation non-trivial: for
positive `bound` it forces real shared text. -/
def sharesOverlap (bound : Nat) (a b : List Char) : Prop :=
  ∃ ov pre rest, ov.length = bound ∧ a = pre ++ ov ∧ b = ov ++ rest

/-- An extraction oracle whose PDF parse fails. -/
def failExtract : List Char → Except String (List Doc) :=
  fun _ => .error "PDF parse error"

/-- A chatbot whose handler already caches an LLM instance. -/
def botLlmW : RAGChatbot :=
  { botW with llm_handler :=
      { provider := "ollama", _llm := some (), _memory := none, _qa_chain := none } }

/- Theorems for the claims. -/

/-- Text no longer than the chunk size stays in one chunk. -/
theorem chunkText_short (size overlap : Nat) (s : List Char)
    (h : s.length ≤ size) : chunkText size overlap s = [s] := by
  rw [chunkText]
  exact if_pos (Or.inl h)

/-- C10: switch_provider lower-cases and stores the provider name and
resets only the cached LLM and the QA chain; the memory field, hence the
conversation history, is unchanged. -/
theorem C10_switch_provider_frame (h : LLMHandler) (p : String) :
    (h.switch_provider p).provider = p.toLower ∧
    (h.switch_provider p)._llm = none ∧
    (h.switch_provider p)._qa_chain = none ∧
    (h.switch_provider p)._memory = h._memory ∧
    (h.switch_provider p).get_conversation_history = h.get_conversation_history :=
  ⟨rfl, rfl, rfl, rfl, rfl⟩

/-- C8: immediately after clear_chat_history the chat history is the empty
list, and the history is also empty when the memory was never created. -/
theorem C8_clear_history_empty (bot : RAGChatbot) :
    (bot.clear_chat_history).get_chat_history = [] ∧
    (bot.llm_handler._memory = none → bot.get_chat_history = []) := by
  constructor
  · unfold RAGChatbot.clear_chat_history RAGChatbot.get_chat_history
      LLMHandler.clear_memory LLMHandler.get_conversation_history
    cases hm : bot.llm_handler._memory <;> simp [hm]
  · intro h
    unfold RAGChatbot.get_chat_history LLMHandler.get_conversation_history
    rw [h]

/-- C8 witness at a freshly constructed bot (memory never created). -/
theorem C8_clear_history_empty_witness :
    (botW.clear_chat_history).get_chat_history = [] ∧
    botW.get_chat_history = [] :=
  ⟨(C8_clear_history_empty botW).1, (C8_clear_history_empty botW).2 rfl⟩

/-- C6: with no store held, search returns [] and get_retriever raises
ValueError; with a store held, search returns at most k documents. -/
theorem C6_search_retriever (m : VectorStoreManager) (query : String) (k : Nat)
    (rank : String → List Doc → List Doc) :
    (m._vector_store = none →
      m.search query k rank = [] ∧
      m.get_retriever k = .error "No vector store available") ∧
    (∀ u, m._vector_store = some u → (m.search query k rank).length ≤ k) := by
  unfold VectorStoreManager.search VectorStoreManager.get_retriever
  constructor
  · intro h
    rw [h]
    exact ⟨rfl, rfl⟩
  · intro u h
    rw [h]
    simp [List.length_take]

/-- C6 witness: both states exercised concretely. -/
theorem C6_search_retriever_witness :
    ((VectorStoreManager.new { collections := [] }).search "q" 4 sampleRank = [] ∧
     (VectorStoreManager.new { collections := [] }).get_retriever 4 =
       .error "No vector store available") ∧
    (mgrW.search "q" 1 sampleRank).length ≤ 1 :=
  ⟨(C6_search_retriever (VectorStoreManager.new { collections := [] }) "q" 4 sampleRank).1 rfl,
   (C6_search_retriever mgrW "q" 1 sampleRank).2 () rfl⟩

/-- C7: once the readiness flag is set, chat catches every exception the
underlying query raises (including the ValueError for a missing QA chain)
and returns it rendered in the result field with no source documents. -/
theorem C7_chat_catches (bot : RAGChatbot) (question : String)
    (chainResult : Except String Response) (e : String)
    (hready : bot._is_ready = true)
    (herr : bot.llm_handler.query question chainResult = .error e) :
    bot.chat question chainResult =
      { result := "Sorry, I encountered an error: " ++ e, source_documents := [] } := by
  unfold RAGChatbot.chat
  rw [hready]
  simp [herr]

/-- C7 witness: a ready bot with no QA chain; the ValueError text is
surfaced in the result. -/
theorem C7_chat_catches_witness :
    readyBotW.chat "hello" (.ok { result := "x", source_documents := [] }) =
      { result := "Sorry, I encountered an error: " ++
          "QA chain not initialized. Call create_qa_chain first."
        source_documents := [] } :=
  C7_chat_catches readyBotW "hello" (.ok { result := "x", source_documents := [] })
    "QA chain not initialized. Call create_qa_chain first." rfl rfl

/-- C4: create_vector_store deletes whatever collection existed under the
configured name and then builds it from exactly the given documents, for
every prior client state. -/
theorem C4_create_replaces (m : VectorStoreManager) (documents : List Doc) :
    ((m.create_vector_store documents (.ok ())).1).chroma_client.lookup
        m.collection_name = some documents ∧
    ((m.create_vector_store documents (.ok ())).1)._vector_store = some () ∧
    (m.create_vector_store documents (.ok ())).2 = .ok () := by
  unfold VectorStoreManager.create_vector_store ChromaClient.from_documents
  cases hd : m.chroma_client.delete_collection m.collection_name <;>
    simp [ChromaClient.lookup, lookupEntries]

/-- Appending to the named entry turns its looked-up contents from `old`
into `old ++ docs` (list-level helper for C5). -/
theorem lookupEntries_append (name : String) (docs : List Doc) :
    ∀ (l : List (String × List Doc)) (old : List Doc),
      lookupEntries l name = some old →
      lookupEntries
        (l.map (fun p => if p.1 = name then (p.1, p.2 ++ docs) else p)) name
        = some (old ++ docs) := by
  intro l
  induction l with
  | nil => intro old h; cases h
  | cons hd tl ih =>
    intro old h
    by_cases hn : hd.1 = name
    · rw [lookupEntries, if_pos hn] at h
      injection h with h2
      simp [lookupEntries, hn, h2]
    · rw [lookupEntries, if_neg hn] at h
      simp only [List.map_cons, if_neg hn]
      rw [lookupEntries, if_neg hn]
      exact ih old h

/-- Appending to the named collection preserves and extends its previous
contents (helper for C5). -/
theorem lookup_append_to (c : ChromaClient) (name : String)
    (docs old : List Doc) (h : c.lookup name = some old) :
    (c.append_to name docs).lookup name = some (old ++ docs) :=
  lookupEntries_append name docs c.collections old h

/-- C5: add_documents is create_vector_store when no store is held, and
otherwise appends the new documents after the existing contents, which
stay present and unchanged. -/
theorem C5_add_documents (m : VectorStoreManager) (documents old : List Doc)
    (embed : Except String Unit) :
    (m._vector_store = none →
      m.add_documents documents embed = m.create_vector_store documents embed) ∧
    (∀ u, m._vector_store = some u →
      m.chroma_client.lookup m.collection_name = some old →
      ((m.add_documents documents (.ok ())).1).chroma_client.lookup
        m.collection_name = some (old ++ documents)) := by
  constructor
  · intro h
    unfold VectorStoreManager.add_documents
    rw [h]
  · intro u h hold
    unfold VectorStoreManager.add_documents
    rw [h]
    exact lookup_append_to m.chroma_client m.collection_name documents old hold

/-- C5 witness: the none case on a fresh manager and the held case on a
one-document collection. -/
theorem C5_add_documents_witness :
    ((VectorStoreManager.new { collections := [] }).add_documents [sampleDoc] (.ok ()) =
      (VectorStoreManager.new { collections := [] }).create_vector_store [sampleDoc] (.ok ())) ∧
    ((mgrW.add_documents [sampleDoc] (.ok ())).1).chroma_client.lookup
      mgrW.collection_name = some ([sampleDoc] ++ [sampleDoc]) :=
  ⟨(C5_add_documents (VectorStoreManager.new { collections := [] })
      [sampleDoc] [] (.ok ())).1 rfl,
   (C5_add_documents mgrW [sampleDoc] [sampleDoc] (.ok ())).2 () rfl rfl⟩

/-- C9: process_multiple_pdfs concatenates, in input order, the chunk
lists process_pdf yields per file: it maps input concatenation to chunk
concatenation, returns [] on [], and agrees with process_pdf on a
singleton. -/
theorem C9_process_multiple_concat (dp : DocumentProcessor)
    (extract : List Char → Except String (List Doc))
    (xs ys : List File) (a b : List Doc)
    (hx : dp.process_multiple_pdfs extract xs = .ok a)
    (hy : dp.process_multiple_pdfs extract ys = .ok b) :
    dp.process_multiple_pdfs extract (xs ++ ys) = .ok (a ++ b) ∧
    dp.process_multiple_pdfs extract [] = .ok [] ∧
    (∀ f, dp.process_multiple_pdfs extract [f] = dp.process_pdf extract f) := by
  refine ⟨?_, rfl, ?_⟩
  · induction xs generalizing a with
    | nil =>
      simp only [DocumentProcessor.process_multiple_pdfs, Except.ok.injEq] at hx
      subst hx
      simpa using hy
    | cons f rest ih =>
      rw [List.cons_append]
      simp only [DocumentProcessor.process_multiple_pdfs] at hx ⊢
      cases hf : dp.process_pdf extract f with
      | error e => simp [hf] at hx
      | ok chunks =>
        simp only [hf] at hx ⊢
        cases hr : dp.process_multiple_pdfs extract rest with
        | error e => simp [hr] at hx
        | ok more =>
          simp only [hr, Except.ok.injEq] at hx
          subst hx
          rw [ih more hr]
          simp [List.append_assoc]
  · intro f
    simp only [DocumentProcessor.process_multiple_pdfs]
    cases hf : dp.process_pdf extract f with
    | error e => simp [hf]
    | ok chunks => simp [hf]

/-- C9 witness: two concrete one-page files. -/
theorem C9_process_multiple_concat_witness :
    dpW.process_multiple_pdfs sampleExtract ([sampleFile] ++ [sampleFile2]) =
      .ok ([{ page_content := ['h', 'i'], source := "up", page := 0 }] ++
           [{ page_content := ['y', 'o'], source := "up", page := 0 }]) ∧
    dpW.process_multiple_pdfs sampleExtract [] = .ok [] ∧
    (∀ f, dpW.process_multiple_pdfs sampleExtract [f] = dpW.process_pdf sampleExtract f) :=
  C9_process_multiple_concat dpW sampleExtract [sampleFile] [sampleFile2]
    [{ page_content := ['h', 'i'], source := "up", page := 0 }]
    [{ page_content := ['y', 'o'], source := "up", page := 0 }]
    (by simp [dpW, sampleExtract, sampleFile, DocumentProcessor.process_multiple_pdfs,
      DocumentProcessor.process_pdf, DocumentProcessor.split_documents, chunkText_short,
      CHUNK_SIZE, CHUNK_OVERLAP])
    (by simp [dpW, sampleExtract, sampleFile2, DocumentProcessor.process_multiple_pdfs,
      DocumentProcessor.process_pdf, DocumentProcessor.split_documents, chunkText_short,
      CHUNK_SIZE, CHUNK_OVERLAP])

/-- A failed process_pdfs call leaves the readiness flag exactly as it
was (helper shared by C1 and C2). -/
theorem process_pdfs_false_flag (bot : RAGChatbot) (files : List File)
    (extract : List Char → Except String (List Doc))
    (embed : Except String Unit) (az : Bool)
    (h : (bot.process_pdfs files extract embed az).2 = false) :
    ((bot.process_pdfs files extract embed az).1)._is_ready = bot._is_ready := by
  unfold RAGChatbot.process_pdfs at h ⊢
  cases hc : bot.document_processor.process_multiple_pdfs extract files with
  | error e => simp
  | ok chunks =>
    simp only [hc] at h ⊢
    cases hcv : bot.vector_store_manager.create_vector_store chunks embed with
    | mk vsm r =>
      simp only [hcv] at h ⊢
      cases r with
      | error e => simp
      | ok u =>
        cases hr : VectorStoreManager.get_retriever
            { bot with vector_store_manager := vsm }.vector_store_manager 4 with
        | error e => simp [hr]
        | ok ret =>
          simp only [hr] at h ⊢
          cases hq : LLMHandler.create_qa_chain
              { bot with vector_store_manager := vsm }.llm_handler ret az with
          | mk lh rc =>
            simp only [hq] at h ⊢
            cases rc with
            | error e => simp
            | ok chain => simp at h

/-- create_vector_store raises exactly when the embedding call does
(helper for C2). -/
theorem create_vector_store_snd (m : VectorStoreManager) (docs : List Doc)
    (embed : Except String Unit) :
    (m.create_vector_store docs embed).2 = embed := by
  unfold VectorStoreManager.create_vector_store ChromaClient.from_documents
  cases hd : m.chroma_client.delete_collection m.collection_name <;>
    cases embed <;> simp [hd]

/-- A successful create_vector_store leaves a store held (helper for C2). -/
theorem create_vector_store_store (m : VectorStoreManager) (docs : List Doc)
    (embed : Except String Unit) (h : embed = .ok ()) :
    ((m.create_vector_store docs embed).1)._vector_store = some () := by
  subst h
  unfold VectorStoreManager.create_vector_store ChromaClient.from_documents
  cases hd : m.chroma_client.delete_collection m.collection_name <;> simp [hd]

/-- create_qa_chain succeeds exactly when get_llm does (helper for C2). -/
theorem create_qa_chain_ok (h : LLMHandler) (ret : Retriever) (az : Bool) :
    (∃ c, (h.create_qa_chain ret az).2 = .ok c) ↔ (h.get_llm az).2 = .ok () := by
  unfold LLMHandler.create_qa_chain
  cases hg : h.get_llm az with
  | mk h1 r =>
    cases r with
    | error e => simp
    | ok u => simp

/-- C2: process_pdfs returns True and sets the readiness flag exactly when
chunking, vector-store creation (the embedding call) and QA-chain creation
(the LLM constructor) all succeed; on any failure it returns False, the
exception does not escape, and the flag keeps its previous value. -/
theorem C2_process_pdfs (bot : RAGChatbot) (files : List File)
    (extract : List Char → Except String (List Doc))
    (embed : Except String Unit) (az : Bool) :
    ((bot.process_pdfs files extract embed az).2 = true ↔
      ((∃ chunks,
          bot.document_processor.process_multiple_pdfs extract files = .ok chunks) ∧
       embed = .ok () ∧
       (bot.llm_handler.get_llm az).2 = .ok ())) ∧
    ((bot.process_pdfs files extract embed az).2 = true →
      ((bot.process_pdfs files extract embed az).1)._is_ready = true) ∧
    ((bot.process_pdfs files extract embed az).2 = false →
      ((bot.process_pdfs files extract embed az).1)._is_ready = bot._is_ready) := by
  refine ⟨?_, ?_, fun h => process_pdfs_false_flag bot files extract embed az h⟩
  · unfold RAGChatbot.process_pdfs
    cases hc : bot.document_processor.process_multiple_pdfs extract files with
    | error e => simp [hc]
    | ok chunks =>
      simp only [hc]
      cases hcv : bot.vector_store_manager.create_vector_store chunks embed with
      | mk vsm r =>
        have hsnd : r = embed := by
          have h2 := create_vector_store_snd bot.vector_store_manager chunks embed
          rw [hcv] at h2
          exact h2
        simp only [hcv]
        cases embed with
        | error e =>
          subst hsnd
          simp
        | ok u =>
          cases u
          subst hsnd
          have hst : vsm._vector_store = some () := by
            have h3 := create_vector_store_store bot.vector_store_manager chunks
              (.ok ()) rfl
            rw [hcv] at h3
            exact h3
          simp only [VectorStoreManager.get_retriever, hst]
          cases hq : LLMHandler.create_qa_chain
              { bot with vector_store_manager := vsm }.llm_handler { k := 4 } az with
          | mk lh rc =>
            have hiff := create_qa_chain_ok
              { bot with vector_store_manager := vsm }.llm_handler { k := 4 } az
            rw [hq] at hiff
            cases rc with
            | error e =>
              simp at hiff ⊢
              intro hchunks
              exact hiff hchunks
            | ok chain =>
              simp at hiff ⊢
              exact hiff
  · unfold RAGChatbot.process_pdfs
    cases hc : bot.document_processor.process_multiple_pdfs extract files with
    | error e => simp
    | ok chunks =>
      cases hcv : bot.vector_store_manager.create_vector_store chunks embed with
      | mk vsm r =>
        simp only [hcv]
        cases r with
        | error e => simp
        | ok u =>
          cases hr : VectorStoreManager.get_retriever
              { bot with vector_store_manager := vsm }.vector_store_manager 4 with
          | error e => simp [hr]
          | ok ret =>
            simp only [hr]
            cases hq : LLMHandler.create_qa_chain
                { bot with vector_store_manager := vsm }.llm_handler ret az with
            | mk lh rc =>
              simp only [hq]
              cases rc with
              | error e => simp
              | ok chain => simp

/-- C2 witness: a fully successful concrete run returns True and sets the
readiness flag. -/
theorem C2_process_pdfs_witness :
    (botLlmW.process_pdfs [sampleFile] sampleExtract (.ok ()) true).2 = true ∧
    ((botLlmW.process_pdfs [sampleFile] sampleExtract (.ok ()) true).1)._is_ready = true := by
  have h := C2_process_pdfs botLlmW [sampleFile] sampleExtract (.ok ()) true
  have h2 : (botLlmW.process_pdfs [sampleFile] sampleExtract (.ok ()) true).2 = true :=
    h.1.mpr ⟨⟨[{ page_content := ['h', 'i'], source := "up", page := 0 }], by
      simp [botLlmW, botW, RAGChatbot.new, sampleExtract, sampleFile,
        DocumentProcessor.process_multiple_pdfs, DocumentProcessor.process_pdf,
        DocumentProcessor.split_documents, chunkText_short, CHUNK_SIZE, CHUNK_OVERLAP]⟩,
      rfl, by rfl⟩
  exact ⟨h2, h.2.1 h2⟩

/-- add_pdfs never writes the readiness flag (helper for C1). -/
theorem add_pdfs_flag (bot : RAGChatbot) (files : List File)
    (extract : List Char → Except String (List Doc))
    (embed : Except String Unit) (az : Bool) :
    ((bot.add_pdfs files extract embed az).1)._is_ready = bot._is_ready := by
  unfold RAGChatbot.add_pdfs
  cases hc : bot.document_processor.process_multiple_pdfs extract files with
  | error e => simp
  | ok chunks =>
    cases hcv : bot.vector_store_manager.add_documents chunks embed with
    | mk vsm r =>
      simp only [hcv]
      cases r with
      | error e => simp
      | ok u =>
        cases hr : VectorStoreManager.get_retriever
            { bot with vector_store_manager := vsm }.vector_store_manager 4 with
        | error e => simp [hr]
        | ok ret =>
          simp only [hr]
          cases hq : LLMHandler.create_qa_chain
              { bot with vector_store_manager := vsm }.llm_handler ret az with
          | mk lh rc =>
            simp only [hq]
            cases rc with
            | error e => simp
            | ok chain => simp

/-- No single API call can raise the readiness flag unless it is a
successful process_pdfs (helper for C1). -/
theorem execOp_keeps_not_ready (bot : RAGChatbot) (op : Op)
    (h : bot._is_ready = false) (hs : succProcess bot op = false) :
    (execOp bot op)._is_ready = false := by
  cases op with
  | opProcess files extract embed az =>
    have hf := process_pdfs_false_flag bot files extract embed az
      (by simpa [succProcess] using hs)
    simp only [execOp]
    rw [hf, h]
  | opAdd files extract embed az =>
    simp only [execOp]
    rw [add_pdfs_flag, h]
  | opChat q cr => simpa [execOp] using h
  | opSearch q k rank => simpa [execOp] using h
  | opClear => simpa [execOp, RAGChatbot.clear_chat_history] using h
  | opReset => simp [execOp, RAGChatbot.reset]

/-- A trace with no successful process_pdfs keeps the flag down
(helper for C1). -/
theorem noSuccProcess_not_ready (ops : List Op) :
    ∀ bot : RAGChatbot, bot._is_ready = false → noSuccProcess bot ops →
      (execTrace bot ops)._is_ready = false := by
  induction ops with
  | nil => intro bot h _; simpa [execTrace] using h
  | cons op rest ih =>
    intro bot h hn
    obtain ⟨h1, h2⟩ := hn
    simpa [execTrace] using ih (execOp bot op) (execOp_keeps_not_ready bot op h h1) h2

/-- C1: starting from construction or from a reset, as long as no
process_pdfs call has succeeded, chat answers the fixed upload prompt with
no source documents — for every chain-invocation oracle, so the LLM
handler is never consulted. -/
theorem C1_chat_unready (s0 : RAGChatbot) (ops : List Op) (question : String)
    (chainResult : Except String Response)
    (h0 : (∃ disk provider, s0 = RAGChatbot.new disk provider) ∨
          (∃ s : RAGChatbot, s0 = s.reset))
    (hn : noSuccProcess s0 ops) :
    (execTrace s0 ops).chat question chainResult =
      { result := "Please upload a PDF file first to start chatting."
        source_documents := [] } := by
  have h : s0._is_ready = false := by
    rcases h0 with ⟨d, p, rfl⟩ | ⟨s, rfl⟩ <;> rfl
  have hr := noSuccProcess_not_ready ops s0 h hn
  unfold RAGChatbot.chat
  rw [hr]
  simp

/-- C1 witness: a fresh bot, a cleared history, a failing process_pdfs and
a chat still answer the upload prompt. -/
theorem C1_chat_unready_witness :
    (execTrace botW [Op.opClear,
        Op.opProcess [sampleFile] failExtract (.ok ()) true,
        Op.opChat "q" (.ok { result := "x", source_documents := [] })]).chat "hello"
      (.ok { result := "y", source_documents := [] }) =
      { result := "Please upload a PDF file first to start chatting."
        source_documents := [] } :=
  C1_chat_unready botW
    [Op.opClear,
     Op.opProcess [sampleFile] failExtract (.ok ()) true,
     Op.opChat "q" (.ok { result := "x", source_documents := [] })]
    "hello" (.ok { result := "y", source_documents := [] })
    (Or.inl ⟨{ collections := [] }, "ollama", rfl⟩)
    ⟨rfl, rfl, rfl, trivial⟩

/-- Every chunk respects the configured size (fuel-indexed helper for C3). -/
theorem chunkText_length_le (size overlap : Nat) (hov : overlap < size) :
    ∀ (n : Nat) (s : List Char), s.length ≤ n →
      ∀ c ∈ chunkText size overlap s, c.length ≤ size := by
  intro n
  induction n with
  | zero =>
    intro s hs c hc
    have hs0 : s = [] := List.eq_nil_of_length_eq_zero (Nat.le_zero.mp hs)
    subst hs0
    rw [chunkText_short size overlap [] (by simp)] at hc
    simp at hc
    subst hc
    simp
  | succ n ih =>
    intro s hs c hc
    rw [chunkText] at hc
    split at hc
    · rename_i hcond
      simp at hc
      subst hc
      rcases hcond with h1 | h1
      · exact h1
      · omega
    · rename_i hcond
      push_neg at hcond
      obtain ⟨h1, h2⟩ := hcond
      rcases List.mem_cons.mp hc with rfl | hc2
      · simp [List.length_take]
      · exact ih (s.drop (size - overlap)) (by simp; omega) c hc2

/-- The first chunk is always the first `size` characters (helper for C3). -/
theorem chunkText_head (size overlap : Nat) (hov : overlap < size)
    (t : List Char) :
    (chunkText size overlap t).head? = some (t.take size) := by
  rw [chunkText]
  split
  · rename_i hcond
    rcases hcond with h1 | h1
    · simp [List.take_of_length_le h1]
    · omega
  · simp

/-- Consecutive chunks share exactly `overlap` characters: the window
advances by `size - overlap`, so the window tail reappears at the head of
the next window (fuel-indexed helper for C3). -/
theorem chunkText_chain (size overlap : Nat) (hov : overlap < size) :
    ∀ (n : Nat) (s : List Char), s.length ≤ n →
      List.Chain' (sharesOverlap overlap) (chunkText size overlap s) := by
  intro n
  induction n with
  | zero =>
    intro s hs
    have hs0 : s = [] := List.eq_nil_of_length_eq_zero (Nat.le_zero.mp hs)
    subst hs0
    rw [chunkText_short size overlap [] (by simp)]
    exact List.chain'_singleton _
  | succ n ih =>
    intro s hs
    rw [chunkText]
    split
    · exact List.chain'_singleton _
    · rename_i hcond
      push_neg at hcond
      obtain ⟨h1, h2⟩ := hcond
      refine List.chain'_cons'.mpr ⟨?_, ih _ (by simp; omega)⟩
      intro b hb
      rw [chunkText_head size overlap hov] at hb
      simp at hb
      subst hb
      refine ⟨(s.drop (size - overlap)).take overlap,
              (s.take size).take (size - overlap),
              ((s.drop (size - overlap)).take size).drop overlap, ?_, ?_, ?_⟩
      · simp only [List.length_take, List.length_drop]
        omega
      · have hdt : (s.take size).drop (size - overlap)
            = (s.drop (size - overlap)).take (size - (size - overlap)) :=
          List.drop_take size (size - overlap) s
        have hso : size - (size - overlap) = overlap := by omega
        calc s.take size
            = (s.take size).take (size - overlap) ++ (s.take size).drop (size - overlap) :=
              (List.take_append_drop _ _).symm
          _ = (s.take size).take (size - overlap) ++ (s.drop (size - overlap)).take overlap := by
              rw [hdt, hso]
      · have hts : (s.drop (size - overlap)).take overlap
            = ((s.drop (size - overlap)).take size).take overlap := by
          rw [List.take_take, Nat.min_eq_left (Nat.le_of_lt hov)]
        rw [hts]
        exact (List.take_append_drop _ _).symm

/-- C3: every chunk split_documents produces is at most chunk_size
characters long, and consecutive chunks of the same document share an
overlap of exactly chunk_overlap characters (in particular, of up to
chunk_overlap characters, as the spec states). -/
theorem C3_chunk_bounds (dp : DocumentProcessor) (documents : List Doc)
    (hov : dp.chunk_overlap < dp.chunk_size) :
    (∀ c ∈ dp.split_documents documents, c.page_content.length ≤ dp.chunk_size) ∧
    (∀ d ∈ documents,
      List.Chain' (sharesOverlap dp.chunk_overlap)
        (chunkText dp.chunk_size dp.chunk_overlap d.page_content)) := by
  constructor
  · intro c hc
    unfold DocumentProcessor.split_documents at hc
    simp only [List.mem_flatMap, List.mem_map] at hc
    obtain ⟨d, hd, t, ht, rfl⟩ := hc
    exact chunkText_length_le dp.chunk_size dp.chunk_overlap hov
      d.page_content.length d.page_content (Nat.le_refl _) t ht
  · intro d hd
    exact chunkText_chain dp.chunk_size dp.chunk_overlap hov
      d.page_content.length d.page_content (Nat.le_refl _)

/-- C3 witness at the config defaults on a concrete document. -/
theorem C3_chunk_bounds_witness :
    dpW.chunk_overlap < dpW.chunk_size ∧
    ((∀ c ∈ dpW.split_documents [sampleDoc], c.page_content.length ≤ dpW.chunk_size) ∧
     (∀ d ∈ [sampleDoc],
       List.Chain' (sharesOverlap dpW.chunk_overlap)
         (chunkText dpW.chunk_size dpW.chunk_overlap d.page_content))) :=
  ⟨by decide, C3_chunk_bounds dpW [sampleDoc] (by decide)⟩
